import Mathlib

/-!
# Verification of the Neuroplex-Agent retrieval pipeline

Shallow embedding of the retrieval orchestration code of the repository:
`ai_engine/core/retriever.py` (class `Retriever`),
`ai_engine/knowledge_database/query_engine.py` (class `QueryEngine`),
`ai_engine/knowledge_database/knowledge_base.py` (class `KnowledgeBase`),
`ai_engine/knowledge_database/embedding_manager.py` (class `EmbeddingManager`),
`ai_engine/graph_database/managers/query_manager.py` (class `QueryManager`) and
`ai_engine/graph_database/managers/data_transformer.py` (class `DataTransformer`).

External collaborators (the generation model, the Milvus vector search, the
Neo4j driver, the Tavily web client, the SQLite file table) are modelled as
explicit inputs giving either a value or an exception (`Except String`),
mirroring how the Python code consumes them.  Floating point scores are
modelled as rationals: the code only compares and sorts scores, it never
performs float arithmetic on them.
-/

namespace Neuroplex

/-! ## Python string primitives

The Python string operations used by the pipeline, implemented over the
character list of a `String` (Lean's built-in iterator-based string
functions are avoided so that concrete runs reduce inside the kernel). -/

/-- Python truthiness of an optional string: `None` and `""` are falsy. -/
def pyTruthyStr : Option String → Bool
  | none => false
  | some s => !(s == "")

/-- `s.split(sep)` on character lists, for a non-empty separator: scan for
the separator, cut, continue on the rest.  The fuel argument (always called
with the input length, which bounds the recursion depth) keeps the
definition structurally recursive; the fuel-exhausted case is unreachable.
(Python raises on an empty separator; the pipeline only ever splits on
`"<->"`.) -/
def splitCharsFuel (sep : List Char) : ℕ → List Char → List (List Char)
  | _, [] => [[]]
  | 0, cs => [cs]
  | fuel + 1, c :: rest =>
    if sep ≠ [] ∧ sep.isPrefixOf (c :: rest) then
      [] :: splitCharsFuel sep fuel ((c :: rest).drop sep.length)
    else
      match splitCharsFuel sep fuel rest with
      | [] => [[c]]
      | seg :: segs => (c :: seg) :: segs

def splitChars (sep cs : List Char) : List (List Char) :=
  splitCharsFuel sep cs.length cs

/-- Python `s.split(sep)`. -/
def pySplit (s sep : String) : List String :=
  (splitChars sep.data s.data).map String.mk

/-- Python `"sep".join(parts)`. -/
def joinWith (sep : String) : List String → String
  | [] => ""
  | [x] => x
  | x :: y :: xs => x ++ sep ++ joinWith sep (y :: xs)

/-- Python `s.replace(old, new)` for a non-empty `old`. -/
def pyReplace (s old new : String) : String :=
  joinWith new (pySplit s old)

/-- Python `s.strip()`: drop whitespace from both ends. -/
def pyStrip (s : String) : String :=
  String.mk (((s.data.dropWhile Char.isWhitespace).reverse.dropWhile Char.isWhitespace).reverse)

/-- Decimal digit run to a number, `none` when empty or non-digit. -/
def charsToNat? (cs : List Char) : Option Nat :=
  if cs ≠ [] ∧ cs.all Char.isDigit then
    some (cs.foldl (fun n c => 10 * n + (c.toNat - 48)) 0)
  else none

/-- Python `int(s)` on a string: strips surrounding whitespace, accepts an
optional sign followed by decimal digits, raises `ValueError` (here `none`)
otherwise.  Used by `QueryManager.get_sample_nodes`, whose Cypher callback
runs `int(num)` on its `num` argument. -/
def pyStrToInt (s : String) : Option Int :=
  match (s.data.dropWhile Char.isWhitespace).reverse.dropWhile Char.isWhitespace |>.reverse with
  | '-' :: ds => (charsToNat? ds).map (fun n => -(n : Int))
  | '+' :: ds => (charsToNat? ds).map (fun n => (n : Int))
  | ds => (charsToNat? ds).map (fun n => (n : Int))

/-! ## Configuration (`ai_engine/configs/agent.py` / `AgentConfig` items)

The dynamic `BaseConfig` dict is modelled by a structure holding the
configuration keys the retrieval pipeline reads.  A missing key reads as
`None` (falsy) in the source; the Boolean fields here are the truthiness of
the stored values. -/

structure AgentConfig where
  enable_kb : Bool
  enable_graph : Bool
  enable_websearch : Bool
  enable_rerank : Bool
  /-- `agent_config.query_mode`, one of `"off" | "on" | "hyde"`. -/
  query_mode : String
  deriving Repr, DecidableEq

/-- Runtime state built by `Retriever._load_models` and
`EmbeddingManager._initialize_models`: whether `self.web_searcher` exists
(set only when `enable_websearch` is truthy) and whether
`embedding_manager.reranker` is a loaded model rather than `None`
(initialization may fail, leaving it `None`). -/
structure LoadedModels where
  webSearcherLoaded : Bool
  rerankerLoaded : Bool
  deriving Repr, DecidableEq

/-! ## Request metadata (`meta` dict handed to `Retriever.retrieval`) -/

structure Meta where
  db_id : Option String
  use_graph : Bool
  use_web : Bool
  /-- `meta.get("mode")`. -/
  mode : Option String
  /-- `meta.get("use_rewrite_query", "off")`. -/
  use_rewrite_query : String
  /-- `meta.get("distanceThreshold", 0.5)`. -/
  distanceThreshold : ℚ
  /-- `meta.get("rerankThreshold", 0.1)`. -/
  rerankThreshold : ℚ
  /-- `meta.get("maxQueryCount", 20)`. -/
  maxQueryCount : ℕ
  /-- `meta.get("topK", 10)`; `Retriever.query_knowledgebase` always passes a
  value, `QueryEngine.advanced_query` defaults it to `None`. -/
  topK : Option ℕ
  deriving Repr, DecidableEq

/-! ## Knowledge-base search results

A Milvus hit, as seen after `dict(r)` in `QueryEngine.advanced_query`:
`{"id": ..., "distance": ..., "entity": {"text": ..., "file_id": ...}}`.
`text` and `file_id` live under the `"entity"` sub-dict in the source. -/

structure KBHit where
  id : Int
  distance : ℚ
  text : String
  file_id : String
  deriving Repr, DecidableEq

/-- A file row from `db_manager.get_file_by_id`. -/
structure DBFile where
  file_id : String
  filename : String
  deriving Repr, DecidableEq

/-- A result dict during/after `advanced_query` processing: the raw hit plus
the optionally attached `"file"` key and the optionally attached
`"rerank_score"` key (both written into the same shared dict object in the
source). -/
structure KBItem where
  hit : KBHit
  file : Option DBFile
  rerank_score : Option ℚ
  deriving Repr, DecidableEq

/-- Sort key used by `filtered_results.sort(key=lambda x: x["rerank_score"], reverse=True)`;
at that point every list element carries a `rerank_score`. -/
def rkey (e : KBItem) : ℚ := e.rerank_score.getD 0

/-- Backends consumed by the knowledge-base query path: the embedding +
Milvus nearest-neighbour search (`QueryEngine.search(query, collection_name,
limit)`, which can raise), the SQLite file lookup
(`db_manager.get_file_by_id`), and
`EmbeddingManager.compute_rerank_scores(query, texts)`. -/
structure KBBackend where
  searchHits : String → String → ℕ → Except String (List KBHit)
  fileLookup : String → Option DBFile
  rerankScores : String → List String → List ℚ

namespace QueryEngine

/-- `[r for r in all_results if r["distance"] > distance_threshold]`. -/
def filterDist (t : ℚ) (l : List KBItem) : List KBItem :=
  l.filter (fun r => t < r.hit.distance)

/-- Assignment `r["rerank_score"] = rerank_scores[i]` over the filtered list:
pairs the filtered items with the score list positionally. -/
def zipScores : List KBItem → List ℚ → List KBItem
  | [], _ => []
  | _ :: _, [] => []
  | e :: es, s :: ss => { e with rerank_score := some s } :: zipScores es ss

/-- The effect of the same assignments as observed through `all_results`: the
filtered items are the very dict objects stored in `all_results`, so each
`all_results` element that passes the distance filter receives the next
score, the others are untouched. -/
def attachScores (t : ℚ) : List KBItem → List ℚ → List KBItem
  | [], _ => []
  | e :: es, ss =>
    if t < e.hit.distance then
      match ss with
      | [] => e :: attachScores t es []
      | s :: ss' => { e with rerank_score := some s } :: attachScores t es ss'
    else e :: attachScores t es ss

/-- One step of Python's stable `list.sort(key=..., reverse=True)`: insert
`x` in front of the first element with a strictly smaller key, after all
elements with an equal or larger key (stability). -/
def insertByRerank (x : KBItem) : List KBItem → List KBItem
  | [] => [x]
  | y :: ys => if rkey y ≤ rkey x then x :: y :: ys else y :: insertByRerank x ys

/-- Stable sort descending by `rerank_score`, the semantics of
`filtered_results.sort(key=lambda x: x["rerank_score"], reverse=True)`. -/
def sortByRerank : List KBItem → List KBItem
  | [] => []
  | x :: xs => insertByRerank x (sortByRerank xs)

/-- `if top_k: filtered_results = filtered_results[:top_k]` — note Python
truthiness: `top_k = 0` (falsy) leaves the list untruncated. -/
def applyTopK (topK : Option ℕ) (l : List KBItem) : List KBItem :=
  match topK with
  | none => l
  | some k => if k = 0 then l else l.take k

/-- Return value of `QueryEngine.advanced_query`. -/
structure Response where
  results : List KBItem
  all_results : List KBItem
  deriving Repr, DecidableEq

/-- `all_results = [dict(r) for r in ...]` followed by the file-enrichment
loop `res["file"] = self.db_manager.get_file_by_id(res["entity"]["file_id"])`. -/
def enrichHits (be : KBBackend) (hits : List KBHit) : List KBItem :=
  hits.map (fun h => { hit := h, file := be.fileLookup h.file_id, rerank_score := none })

/-- The body of `QueryEngine.advanced_query` after the initial search
returned `hits`: file enrichment, distance filtering, optional reranking
(assignment, stable descending sort, rerank-threshold filter), truthy
`top_k` truncation.  The rerank-score assignments are visible through the
shared dicts of `all_results` as well (`attachScores`); a score list shorter
than the filtered list would raise `IndexError` at `rerank_scores[i]`. -/
def advanced_query_core (cfg : AgentConfig) (models : LoadedModels) (be : KBBackend)
    (query : String) (distance_threshold rerank_threshold : ℚ) (topK : Option ℕ)
    (hits : List KBHit) : Except String Response :=
  let all_results : List KBItem := enrichHits be hits
  let filtered := filterDist distance_threshold all_results
  if cfg.enable_rerank ∧ filtered ≠ [] ∧ models.rerankerLoaded then
    let texts := filtered.map (fun r => r.hit.text)
    let scores := be.rerankScores query texts
    if scores.length < filtered.length then
      .error "IndexError: list index out of range"
    else
      let scored := zipScores filtered scores
      let all_after := attachScores distance_threshold all_results scores
      let ranked := (sortByRerank scored).filter (fun r => rerank_threshold < rkey r)
      .ok { results := applyTopK topK ranked, all_results := all_after }
  else
    .ok { results := applyTopK topK filtered, all_results := all_results }

/-- `QueryEngine.advanced_query(query, db_id, **kwargs)`: the initial
vector search (`self.search(query, db_id, limit=max_query_count)`, whose
embedding/Milvus exceptions propagate) followed by `advanced_query_core`.
There is no embedding-model compatibility check anywhere on this path. -/
def advanced_query (cfg : AgentConfig) (models : LoadedModels) (be : KBBackend)
    (query db_id : String) (distance_threshold rerank_threshold : ℚ)
    (max_query_count : ℕ) (topK : Option ℕ) : Except String Response := do
  let hits ← be.searchHits query db_id max_query_count
  advanced_query_core cfg models be query distance_threshold rerank_threshold topK hits

end QueryEngine

/-! ## Graph database (`graph_database/managers/`)

A raw Neo4j result row as consumed by `DataTransformer.format_query_results`:
the three columns `n, r, m` of `RETURN n, r, m`.  `element_id` attributes may
be absent (`None`); a node's `name` property defaults to `"unknown"` in the
transformer, so the name fields here hold the already-defaulted strings. -/

structure GraphRaw where
  n_id : Option String
  n_name : String
  m_id : Option String
  m_name : String
  r_id : Option String
  r_type : String
  deriving Repr, DecidableEq

structure GNode where
  id : String
  name : String
  deriving Repr, DecidableEq

structure GEdge where
  id : String
  type : String
  source_id : Option String
  target_id : Option String
  source_name : String
  target_name : String
  deriving Repr, DecidableEq

/-- The `{"nodes": [...], "edges": [...]}` structure built by
`DataTransformer.format_query_results`. -/
structure GraphFormatted where
  nodes : List GNode
  edges : List GEdge
  deriving Repr, DecidableEq

/-- `if n_id and n_id not in node_ids: append node` — one node-appending
step, with Python string truthiness on the element id. -/
def addNodeEntry (st : List GNode × List String) (oid : Option String) (name : String) :
    List GNode × List String :=
  match oid with
  | none => st
  | some i =>
    if i ≠ "" ∧ i ∉ st.2 then (st.1 ++ [{ id := i, name := name }], st.2 ++ [i]) else st

/-- Loop body of `DataTransformer.format_query_results`, accumulating nodes,
seen node ids, edges and seen edge ids.  (Rows with fewer than three columns
are skipped in the source; `GraphRaw` models exactly the three-column rows
the `RETURN n, r, m` queries produce.) -/
def formatQueryAux : List GraphRaw → List GNode → List String → List GEdge → List String →
    GraphFormatted
  | [], nodes, _, edges, _ => { nodes := nodes, edges := edges }
  | item :: rest, nodes, nids, edges, eids =>
    let st1 := addNodeEntry (nodes, nids) item.n_id item.n_name
    let st2 := addNodeEntry st1 item.m_id item.m_name
    let st3 :=
      match item.r_id with
      | none => (edges, eids)
      | some rid =>
        if rid ≠ "" ∧ rid ∉ eids then
          (edges ++ [({ id := rid, type := item.r_type, source_id := item.n_id,
                        target_id := item.m_id, source_name := item.n_name,
                        target_name := item.m_name } : GEdge)], eids ++ [rid])
        else (edges, eids)
    formatQueryAux rest st2.1 st2.2 st3.1 st3.2

/-- `DataTransformer.format_query_results(results)`. -/
def DataTransformer.format_query_results (results : List GraphRaw) : GraphFormatted :=
  formatQueryAux results [] [] [] []

/-- The Neo4j query operations behind `QueryManager`: the sample query
`MATCH (n)-[r]->(m) RETURN n, r, m LIMIT $num` and the per-entity traversal
`MATCH (n {name: $entity_name})-[r*1..hops]-(m) RETURN n, r, m LIMIT $limit`.
Each returns rows or raises. -/
structure GraphBackend where
  sample : Int → Except String (List GraphRaw)
  traverse : String → ℕ → ℕ → Except String (List GraphRaw)

/-- `QueryManager.get_sample_nodes(num=50, db_name=None)`: its Cypher
callback runs `int(num)`, so a non-numeric `num` raises `ValueError`, which
the surrounding `except` re-raises as `QueryError`.  The parameter is
annotated `num: int` in the source, but `Retriever.query_graph` passes an
entity *string* here, which is why the argument is a string in this model. -/
def QueryManager.get_sample_nodes (be : GraphBackend) (num : String) :
    Except String (List GraphRaw) :=
  match pyStrToInt num with
  | none => .error ("Failed to get sample nodes: invalid literal for int() with base 10: " ++ num)
  | some n =>
    match be.sample n with
    | .error e => .error ("Failed to get sample nodes: " ++ e)
    | .ok r => .ok r

/-- `QueryManager.query_specific_entity(entity_name, hops=2, limit=100)`:
the per-entity bounded-hop traversal (present in the repository but never
called by `Retriever.query_graph`). -/
def QueryManager.query_specific_entity (be : GraphBackend) (entity_name : String)
    (hops : ℕ := 2) (limit : ℕ := 100) : Except String (List GraphRaw) :=
  match be.traverse entity_name hops limit with
  | .error e => .error ("Failed to query specific entity: " ++ e)
  | .ok r => .ok r

/-! ## Web search and generation backends -/

/-- One formatted Tavily result from `WebSearcher.search`. -/
structure WebHit where
  title : String
  content : String
  url : String
  score : ℚ
  deriving Repr, DecidableEq

/-- One entry of the conversation history. -/
structure ChatMsg where
  role : String
  content : String
  deriving Repr, DecidableEq

/-- Outcomes of the generation-model calls made by the retriever: the
rewrite prompt, the HyDE prompt and the NER prompt.  Each field is the
`.content` of `model.generate_response(...)`, or the exception it raised. -/
structure GenBackend where
  rewriteResponse : Except String String
  hydeResponse : Except String String
  nerResponse : Except String String

/-- All external collaborators of one `Retriever.retrieval` run. -/
structure Backends where
  gen : GenBackend
  kb : KBBackend
  graph : GraphBackend
  /-- outcome of `self.web_searcher.search(query, max_results=5)` -/
  web : Except String (List WebHit)

/-! ## The retriever (`ai_engine/core/retriever.py`) -/

/-- Return value of `Retriever.query_knowledgebase`. -/
structure KBResponse where
  results : List KBItem
  all_results : List KBItem
  rw_query : String
  message : String
  deriving Repr, DecidableEq

/-- Return value of `Retriever.query_graph`. -/
structure GraphResponse where
  results : GraphFormatted
  deriving Repr, DecidableEq

/-- Return value of `Retriever.query_web`; `message := ""` models the absent
`"message"` key of the success dict `{"results": search_results}`. -/
structure WebResponse where
  results : List WebHit
  message : String
  deriving Repr, DecidableEq

/-- `Retriever.rewrite_query(query, history, refs)`.  The generation calls
are modelled by their outcomes in `gen` (the `history`-bearing prompt text
is absorbed into those outcomes; `select_model` is assumed to succeed).
For span `"hyde"` the plain rewrite call runs first (the `else` branch of
`span == "off"`), then the HyDE call overwrites its result; either call's
exception propagates. -/
def Retriever.rewrite_query (cfg : AgentConfig) (gen : GenBackend) (query : String)
    (history : List ChatMsg) (meta : Meta) : Except String String := do
  let span := if meta.mode = some "search" then meta.use_rewrite_query else cfg.query_mode
  let rewritten ← if span = "off" then pure query else gen.rewriteResponse
  if span = "hyde" then gen.hydeResponse else pure rewritten

/-- `Retriever.reco_entities(query, history, refs)`: one NER generation call
when `meta.get("use_graph")` is truthy, whose response content is split on
`"<->"` with no trimming and no filtering; otherwise the empty list.  The
generation exception propagates — there is no `try`/`except` here. -/
def Retriever.reco_entities (gen : GenBackend) (query : String) (meta : Meta) :
    Except String (List String) := do
  if meta.use_graph then do
    let content ← gen.nerResponse
    pure (pySplit content "<->")
  else pure []

/-- The entity loop of `Retriever.query_graph`: for each non-blank entity,
`result = graph_database.get_sample_nodes(entity)` (exceptions propagate),
then `if result != []: results.extend(result)`. -/
def queryGraphLoop (gbe : GraphBackend) : List String → List GraphRaw →
    Except String (List GraphRaw)
  | [], acc => .ok acc
  | entity :: rest, acc =>
    if entity ≠ "" then
      match QueryManager.get_sample_nodes gbe entity with
      | .error e => .error e
      | .ok result =>
        queryGraphLoop gbe rest (if result ≠ [] then acc ++ result else acc)
    else queryGraphLoop gbe rest acc

/-- `Retriever.query_graph(query, history, refs)`: guarded by
`refs["meta"].get("use_graph") and agent_config.enable_kb` (note: the *kb*
feature flag, not `enable_graph`), it runs the entity loop and formats the
accumulated rows.  Backend exceptions propagate — no `try`/`except`. -/
def Retriever.query_graph (cfg : AgentConfig) (gbe : GraphBackend) (meta : Meta)
    (entities : List String) : Except String GraphResponse :=
  match (if meta.use_graph ∧ cfg.enable_kb then queryGraphLoop gbe entities [] else .ok []) with
  | .error e => .error e
  | .ok results => .ok { results := DataTransformer.format_query_results results }

/-- `Retriever.query_knowledgebase(query, history, refs)`: early return when
`meta.get("db_id")` is falsy or the kb feature is off; otherwise rewrite the
query and call `knowledge_base.query` (= `QueryEngine.advanced_query`) with
the meta thresholds.  Exceptions of the rewrite and of the search propagate
— no `try`/`except`. -/
def Retriever.query_knowledgebase (cfg : AgentConfig) (models : LoadedModels)
    (gen : GenBackend) (kbe : KBBackend) (query : String) (history : List ChatMsg)
    (meta : Meta) : Except String KBResponse := do
  if ¬(pyTruthyStr meta.db_id ∧ cfg.enable_kb) then
    pure { results := [], all_results := [], rw_query := query,
           message := "The knowledge base is not enabled, or the knowledge base is not specified, or the knowledge base does not exist" }
  else do
    let rw_query ← Retriever.rewrite_query cfg gen query history meta
    let qr ← QueryEngine.advanced_query cfg models kbe rw_query
      (meta.db_id.getD "") meta.distanceThreshold meta.rerankThreshold
      meta.maxQueryCount meta.topK
    pure { results := qr.results, all_results := qr.all_results,
           rw_query := rw_query, message := "" }

/-- `Retriever.query_web(query, history, refs)`: guard
`if not (refs["meta"].get("use_web") or not agent_config.enable_websearch)`
(so the search is *attempted* whenever `use_web` is truthy **or** the
websearch feature is disabled); the attempt's exceptions — including the
`AttributeError` when `self.web_searcher` was never created because
`enable_websearch` is off — are caught and become
`{"results": [], "message": "Web search error"}`. -/
def Retriever.query_web (cfg : AgentConfig) (models : LoadedModels)
    (web : Except String (List WebHit)) (meta : Meta) : WebResponse :=
  if ¬(meta.use_web ∨ ¬cfg.enable_websearch) then
    { results := [], message := "Web search is disabled" }
  else
    match (if models.webSearcherLoaded then web
           else Except.error "AttributeError: no attribute web_searcher") with
    | .error _ => { results := [], message := "Web search error" }
    | .ok hits => { results := hits, message := "" }

/-- The evidence bundle assembled by `Retriever.retrieval` (the `refs` dict;
the `query`/`history`/`meta`/`model_name` passthrough entries that carry no
evidence are represented by the `query` field). -/
structure Refs where
  query : String
  entities : List String
  knowledge_base : KBResponse
  graph_base : GraphResponse
  web_search : WebResponse
  deriving Repr, DecidableEq

/-- `Retriever.retrieval(query, history, meta)`: entity extraction, then the
three source adapters in order kb, graph, web.  Only `query_web` contains a
`try`/`except`; an exception from `reco_entities`, `query_knowledgebase` or
`query_graph` propagates out of `retrieval`. -/
def Retriever.retrieval (cfg : AgentConfig) (models : LoadedModels) (be : Backends)
    (query : String) (history : List ChatMsg) (meta : Meta) : Except String Refs := do
  let entities ← Retriever.reco_entities be.gen query meta
  let kb ← Retriever.query_knowledgebase cfg models be.gen be.kb query history meta
  let gb ← Retriever.query_graph cfg be.graph meta entities
  let ws := Retriever.query_web cfg models be.web meta
  pure { query := query, entities := entities, knowledge_base := kb,
         graph_base := gb, web_search := ws }

/-! ## Context assembly (`Retriever.construct_query`) -/

/-- The `knowbase_qa_template` string of `ai_engine/utils/prompts.py`
(imported by the retriever under the name `KNOWBASE_QA_TEMPLATE`; the stray
double quote after `</Question>` is in the source). -/
def KNOWBASE_QA_TEMPLATE : String :=
  "\nPlease use the retrieved information to answer the question. When answering, do not overuse bullet points.\n\n<Reference Material>:\n{external}\n</Reference Material>\n\n<Question>\n{query}\n</Question>\"\n"

/-- `KNOWBASE_QA_TEMPLATE.format(external=..., query=...)`: substitute the
two replacement fields.  (Python's `format` scans the template once; the
replace chain here agrees with it because the template text contains each
field exactly once.) -/
def pyFormatTemplate (template external query : String) : String :=
  pyReplace (pyReplace template "{external}" external) "{query}" query

/-- The `external_parts` list built by `Retriever.construct_query`: a header
plus a rendered block for each non-empty evidence group, in the order kb,
graph, web.  Note the graph group is gated on `nodes` being non-empty while
its text renders the `edges`. -/
def Retriever.externalParts (refs : Refs) : List String :=
  (if refs.knowledge_base.results ≠ [] then
    ["Knowledge base information:",
     joinWith "\n" (refs.knowledge_base.results.map
       (fun r => toString r.hit.id ++ ": " ++ r.hit.text))]
   else []) ++
  (if refs.graph_base.results.nodes ≠ [] then
    ["Graph database information:",
     joinWith "\n" (refs.graph_base.results.edges.map
       (fun e => e.source_name ++ " and " ++ e.target_name ++ " are connected by " ++ e.type))]
   else []) ++
  (if refs.web_search.results ≠ [] then
    ["Web search information:",
     joinWith "\n" (refs.web_search.results.map
       (fun r => r.title ++ ": " ++ r.content))]
   else [])

/-- `Retriever.construct_query(query, refs, meta)`.  The source's opening
guard `if not refs or len(refs) == 0: return query` never fires for the
(always non-empty) dict built by `retrieval`, which this `Refs` structure
models.  When no group contributed a part, the query is returned untouched;
otherwise the parts are joined with blank lines and interpolated into the
fixed template. -/
def Retriever.construct_query (query : String) (refs : Refs) (meta : Meta) : String :=
  let external_parts := Retriever.externalParts refs
  if external_parts ≠ [] then
    pyFormatTemplate KNOWBASE_QA_TEMPLATE (joinWith "\n\n" external_parts) query
  else query

/-! ## Knowledge-base ingestion-side model checks
(`knowledge_base.py`, `embedding_manager.py`) -/

/-- A row of the `databases` table (`db_manager.get_database_by_id`). -/
structure DBRecord where
  db_id : String
  name : String
  embed_model : String
  deriving Repr, DecidableEq

/-- `EmbeddingManager.check_model_compatibility(required_model)`: compares
`get_model_name()` (which is `None` when no embedding model is loaded) with
the collection's recorded model. -/
def EmbeddingManager.check_model_compatibility (current : Option String)
    (required : String) : Bool :=
  current == some required

/-- Outcome of the opening guard of `KnowledgeBase.add_files`. -/
inductive AddFilesOutcome where
  | failed (message : String)
  /-- the guard passed; per-file processing begins -/
  | proceed
  deriving Repr, DecidableEq

/-- The lookup/compatibility guard of `KnowledgeBase.add_files` (the rest of
the function — chunking, Milvus insertion — runs only when this guard
passes).  `f"current={...}"` renders a missing model as `"None"`. -/
def KnowledgeBase.add_files_guard (db : Option DBRecord) (currentModel : Option String) :
    AddFilesOutcome :=
  match db with
  | none => .failed "Database not found"
  | some db =>
    if ¬ EmbeddingManager.check_model_compatibility currentModel db.embed_model then
      .failed ("Model mismatch: current=" ++ (currentModel.getD "None") ++
               ", required=" ++ db.embed_model)
    else .proceed

/-- `KnowledgeBase.get_retrievers`: the database ids for which a retriever
is built — collections whose recorded embedding model mismatches the current
one are skipped with a warning. -/
def KnowledgeBase.get_retrievers (dbs : List DBRecord) (currentModel : Option String) :
    List String :=
  (dbs.filter
    (fun db => EmbeddingManager.check_model_compatibility currentModel db.embed_model)).map
    (fun db => db.db_id)

/-! ## Spec-side definitions and claim projections -/

/-- Modelled from the spec (for comparison only, §4.2 of `spec.md`): the
entity post-processing the specification claims — split on the delimiter,
trim each entry of surrounding whitespace, drop empty or whitespace-only
entries. -/
def specEntityCleanup (response : String) : List String :=
  ((pySplit response "<->").map pyStrip).filter (fun s => s ≠ "")

/-- Evidence source tags of the spec's `EvidenceItem`. -/
inductive Source where
  | kb
  | graph
  | web
  deriving Repr, DecidableEq

/-- The evidence bundle flattened to (source, rerank score) pairs: kb result
dicts carry the optional `rerank_score` key written by the rerank stage;
graph edge dicts and web result dicts never receive such a key. -/
def bundleRerankScores (refs : Refs) : List (Source × Option ℚ) :=
  refs.knowledge_base.results.map (fun r => (Source.kb, r.rerank_score)) ++
  refs.graph_base.results.edges.map (fun _ => (Source.graph, (none : Option ℚ))) ++
  refs.web_search.results.map (fun _ => (Source.web, (none : Option ℚ)))

/-! ## Concrete fixtures used by scenario parts, witnesses and
counterexamples -/

namespace Sample

def hit09 : KBHit := { id := 1, distance := 0.9, text := "alpha", file_id := "f1" }

def hit04 : KBHit := { id := 2, distance := 0.4, text := "beta", file_id := "f2" }

def hit06 : KBHit := { id := 3, distance := 0.6, text := "gamma", file_id := "f3" }

def item09 : KBItem := { hit := hit09, file := none, rerank_score := none }

def item04 : KBItem := { hit := hit04, file := none, rerank_score := none }

def item06 : KBItem := { hit := hit06, file := none, rerank_score := none }

/-- A benign generation backend: every model call succeeds. -/
def genOk : GenBackend :=
  { rewriteResponse := .ok "rewritten", hydeResponse := .ok "hypothetical",
    nerResponse := .ok "E1" }

/-- One knowledge-base hit with an integral similarity score. -/
def kbHit : KBHit := { id := 7, distance := 1, text := "doc", file_id := "f" }

/-- A knowledge-base backend that finds `kbHit` and scores every reranked
text with 2. -/
def kbOk : KBBackend :=
  { searchHits := fun _ _ _ => .ok [kbHit], fileLookup := fun _ => none,
    rerankScores := fun _ ts => ts.map (fun _ => 2) }

/-- A knowledge-base backend whose vector search raises. -/
def kbErr : KBBackend :=
  { searchHits := fun _ _ _ => .error "milvus down", fileLookup := fun _ => none,
    rerankScores := fun _ ts => ts.map (fun _ => 2) }

/-- A graph backend that succeeds with no rows. -/
def graphOk : GraphBackend :=
  { sample := fun _ => .ok [], traverse := fun _ _ _ => .ok [] }

/-- A graph backend whose queries raise. -/
def graphErr : GraphBackend :=
  { sample := fun _ => .error "neo4j down", traverse := fun _ _ _ => .error "neo4j down" }

def webHit : WebHit := { title := "t", content := "c", url := "http://w", score := 1 }

/-- A request meta with kb, web enabled and graph disabled, integral
thresholds, rewrite off. -/
def metaKbWeb : Meta :=
  { db_id := some "kb1", use_graph := false, use_web := true, mode := none,
    use_rewrite_query := "off", distanceThreshold := 0, rerankThreshold := 1,
    maxQueryCount := 20, topK := some 10 }

/-- An empty evidence bundle. -/
def refsEmpty : Refs :=
  { query := "q", entities := [],
    knowledge_base := { results := [], all_results := [], rw_query := "q", message := "" },
    graph_base := { results := { nodes := [], edges := [] } },
    web_search := { results := [], message := "" } }

/-- A deployment with every feature flag on, including reranking. -/
def cfgRerank : AgentConfig :=
  { enable_kb := true, enable_graph := true, enable_websearch := true,
    enable_rerank := true, query_mode := "off" }

def modelsAll : LoadedModels := { webSearcherLoaded := true, rerankerLoaded := true }

/-- Backends: kb finds `kbHit`, graph finds nothing, web finds `webHit`. -/
def beKbWeb : Backends :=
  { gen := genOk, kb := kbOk, graph := graphOk, web := .ok [webHit] }

/-- `kbHit` after enrichment and rerank scoring. -/
def itemScored : KBItem := { hit := kbHit, file := none, rerank_score := some 2 }

/-- The bundle `Retriever.retrieval cfgRerank modelsAll beKbWeb "q" [] metaKbWeb`
produces: the reranked kb item plus the unscored web item. -/
def refsRerank : Refs :=
  { query := "q", entities := [],
    knowledge_base :=
      { results := [itemScored], all_results := [itemScored], rw_query := "q", message := "" },
    graph_base := { results := { nodes := [], edges := [] } },
    web_search := { results := [webHit], message := "" } }

/-- Backends whose kb vector search raises. -/
def beKbErr : Backends :=
  { gen := genOk, kb := kbErr, graph := graphOk, web := .ok [webHit] }

/-- Backends whose web search raises. -/
def beWebErr : Backends :=
  { gen := genOk, kb := kbOk, graph := graphOk, web := .error "tavily down" }

/-- A deployment with the graph feature flag off but the kb flag on. -/
def cfgGraphOff : AgentConfig :=
  { enable_kb := true, enable_graph := false, enable_websearch := true,
    enable_rerank := false, query_mode := "off" }

/-- A deployment with the websearch feature flag off. -/
def cfgWsOff : AgentConfig :=
  { enable_kb := true, enable_graph := true, enable_websearch := false,
    enable_rerank := false, query_mode := "off" }

/-- A deployment with rewriting globally set to `"on"`. -/
def cfgRwOn : AgentConfig :=
  { enable_kb := true, enable_graph := true, enable_websearch := true,
    enable_rerank := false, query_mode := "on" }

/-- A deployment with kb on and reranking off. -/
def cfgKbNoRerank : AgentConfig :=
  { enable_kb := true, enable_graph := true, enable_websearch := true,
    enable_rerank := false, query_mode := "off" }

/-- No loaded web searcher / reranker. -/
def modelsNone : LoadedModels := { webSearcherLoaded := false, rerankerLoaded := false }

/-- A request meta with graph requested, no kb id and no web. -/
def metaGraphOnly : Meta :=
  { db_id := none, use_graph := true, use_web := false, mode := none,
    use_rewrite_query := "off", distanceThreshold := 0, rerankThreshold := 1,
    maxQueryCount := 20, topK := some 10 }

/-- A request meta with graph requested and a kb id supplied. -/
def metaGraphKb : Meta :=
  { db_id := some "kb1", use_graph := true, use_web := false, mode := none,
    use_rewrite_query := "off", distanceThreshold := 0, rerankThreshold := 1,
    maxQueryCount := 20, topK := some 10 }

/-- A generation backend whose NER call raises. -/
def genNerErr : GenBackend :=
  { rewriteResponse := .ok "rewritten", hydeResponse := .ok "hypothetical",
    nerResponse := .error "llm down" }

/-- A generation backend whose rewrite call raises. -/
def genRwErr : GenBackend :=
  { rewriteResponse := .error "llm down", hydeResponse := .ok "hypothetical",
    nerResponse := .ok "E1" }

/-- A generation backend whose NER response has whitespace and a blank
around the delimiter. -/
def genNerSpace : GenBackend :=
  { rewriteResponse := .ok "rewritten", hydeResponse := .ok "hypothetical",
    nerResponse := .ok " Paris <->France" }

/-- A generation backend answering the NER prompt with `"Paris<->France"`. -/
def genNerParis : GenBackend :=
  { rewriteResponse := .ok "rewritten", hydeResponse := .ok "hypothetical",
    nerResponse := .ok "Paris<->France" }

/-- `kbHit` enriched but unscored (no rerank stage). -/
def itemPlain : KBItem := { hit := kbHit, file := none, rerank_score := none }

/-- A collection record whose stored embedding model is not the configured
one. -/
def dbMismatch : DBRecord :=
  { db_id := "kb1", name := "docs", embed_model := "text-embedding-ada-002" }

end Sample

/-! ## Lemmas about the ranking stages -/

namespace QueryEngine

theorem mem_filterDist {t : ℚ} {l : List KBItem} {r : KBItem}
    (h : r ∈ filterDist t l) : t < r.hit.distance := by
  have := List.mem_filter.mp h
  simpa using this.2

theorem filterDist_sublist (t : ℚ) (l : List KBItem) : (filterDist t l).Sublist l :=
  List.filter_sublist l

theorem insertByRerank_perm (x : KBItem) (l : List KBItem) :
    (insertByRerank x l).Perm (x :: l) := by
  induction l with
  | nil => exact List.Perm.refl _
  | cons y ys ih =>
    unfold insertByRerank
    by_cases h : rkey y ≤ rkey x
    · simp [h]
    · simp only [h, if_false]
      exact ((ih.cons y).trans (List.Perm.swap x y ys))

theorem mem_insertByRerank {x z : KBItem} {l : List KBItem}
    (h : z ∈ insertByRerank x l) : z = x ∨ z ∈ l := by
  have := (insertByRerank_perm x l).mem_iff.mp h
  simpa using this

theorem insertByRerank_sorted (x : KBItem) {l : List KBItem}
    (h : l.Pairwise (fun a b => rkey b ≤ rkey a)) :
    (insertByRerank x l).Pairwise (fun a b => rkey b ≤ rkey a) := by
  induction l with
  | nil => simp [insertByRerank]
  | cons y ys ih =>
    rw [List.pairwise_cons] at h
    obtain ⟨hy, hys⟩ := h
    unfold insertByRerank
    by_cases hxy : rkey y ≤ rkey x
    · simp only [hxy, if_true, List.pairwise_cons]
      refine ⟨?_, hy, hys⟩
      intro z hz
      rcases List.mem_cons.mp hz with rfl | hz
      · exact hxy
      · exact le_trans (hy z hz) hxy
    · simp only [hxy, if_false, List.pairwise_cons]
      refine ⟨?_, ih hys⟩
      intro z hz
      rcases mem_insertByRerank hz with rfl | hz
      · exact le_of_lt (lt_of_not_le hxy)
      · exact hy z hz

theorem sortByRerank_perm (l : List KBItem) : (sortByRerank l).Perm l := by
  induction l with
  | nil => exact List.Perm.refl _
  | cons x xs ih =>
    exact (insertByRerank_perm x (sortByRerank xs)).trans (ih.cons x)

theorem sortByRerank_sorted (l : List KBItem) :
    (sortByRerank l).Pairwise (fun a b => rkey b ≤ rkey a) := by
  induction l with
  | nil => simp [sortByRerank]
  | cons x xs ih => exact insertByRerank_sorted x ih

theorem zipScores_map_hit : ∀ (l : List KBItem) (ss : List ℚ),
    l.length ≤ ss.length → (zipScores l ss).map KBItem.hit = l.map KBItem.hit
  | [], _, _ => rfl
  | e :: es, s :: ss, h => by
    simp only [zipScores, List.map_cons]
    exact congrArg _ (zipScores_map_hit es ss (by simpa using h))
  | _ :: _, [], h => by simp at h

theorem mem_zipScores_isSome : ∀ {l : List KBItem} {ss : List ℚ} {x : KBItem},
    x ∈ zipScores l ss → x.rerank_score.isSome
  | e :: es, s :: ss, x, h => by
    rcases List.mem_cons.mp h with rfl | h
    · rfl
    · exact mem_zipScores_isSome h

theorem attachScores_map_hit : ∀ (t : ℚ) (l : List KBItem) (ss : List ℚ),
    (attachScores t l ss).map KBItem.hit = l.map KBItem.hit
  | _, [], _ => rfl
  | t, e :: es, ss => by
    unfold attachScores
    by_cases h : t < e.hit.distance
    · cases ss with
      | nil => simp only [h, if_true, List.map_cons]; exact congrArg _ (attachScores_map_hit t es [])
      | cons s ss' =>
        simp only [h, if_true, List.map_cons]
        exact congrArg _ (attachScores_map_hit t es ss')
    · simp only [h, if_false, List.map_cons]
      exact congrArg _ (attachScores_map_hit t es ss)

theorem attachScores_filter : ∀ (t : ℚ) (l : List KBItem) (ss : List ℚ),
    (filterDist t l).length ≤ ss.length →
    filterDist t (attachScores t l ss) = zipScores (filterDist t l) ss
  | _, [], _, _ => rfl
  | t, e :: es, ss, h => by
    by_cases hd : t < e.hit.distance
    · have hcons : filterDist t (e :: es) = e :: filterDist t es := by
        simp [filterDist, List.filter_cons, hd]
      rw [hcons] at h
      cases ss with
      | nil => simp at h
      | cons s ss' =>
        unfold attachScores
        simp only [hd, if_true]
        have : filterDist t ({ e with rerank_score := some s } :: attachScores t es ss')
            = { e with rerank_score := some s } :: filterDist t (attachScores t es ss') := by
          simp [filterDist, List.filter_cons, hd]
        rw [this, hcons]
        simp only [zipScores]
        exact congrArg _ (attachScores_filter t es ss' (by simpa using h))
    · have hcons : filterDist t (e :: es) = filterDist t es := by
        simp [filterDist, List.filter_cons, hd]
      rw [hcons] at h
      unfold attachScores
      simp only [hd, if_false]
      have : filterDist t (e :: attachScores t es ss) = filterDist t (attachScores t es ss) := by
        simp [filterDist, List.filter_cons, hd]
      rw [this, hcons]
      exact attachScores_filter t es ss h

theorem applyTopK_sublist (topK : Option ℕ) (l : List KBItem) :
    (applyTopK topK l).Sublist l := by
  cases topK with
  | none => exact List.Sublist.refl l
  | some k =>
    by_cases h : k = 0
    · simp [applyTopK, h]
    · simp only [applyTopK, h, if_false]
      exact List.take_sublist k l

theorem enrichHits_map_hit (be : KBBackend) (hits : List KBHit) :
    (enrichHits be hits).map KBItem.hit = hits := by
  simp [enrichHits, List.map_map, Function.comp_def]

/-- Every final result of the rerank branch is one of the (score-enriched)
`all_results` items. -/
theorem rerank_branch_subset_all (all : List KBItem) (ss : List ℚ) (dt rt : ℚ)
    (topK : Option ℕ) (hlen : (filterDist dt all).length ≤ ss.length) :
    ∀ r ∈ applyTopK topK ((sortByRerank (zipScores (filterDist dt all) ss)).filter
      (fun r => decide (rt < rkey r))), r ∈ attachScores dt all ss := by
  intro r hr
  have h1 : r ∈ (sortByRerank (zipScores (filterDist dt all) ss)).filter
      (fun r => decide (rt < rkey r)) := (applyTopK_sublist topK _).subset hr
  have h2 : r ∈ sortByRerank (zipScores (filterDist dt all) ss) :=
    (List.filter_sublist _).subset h1
  have h3 : r ∈ zipScores (filterDist dt all) ss := (sortByRerank_perm _).subset h2
  rw [← attachScores_filter dt all ss hlen] at h3
  exact (filterDist_sublist dt _).subset h3

/-- The rerank branch never returns more results than `all_results` items. -/
theorem rerank_branch_length_le (all : List KBItem) (ss : List ℚ) (dt rt : ℚ)
    (topK : Option ℕ) (hlen : (filterDist dt all).length ≤ ss.length) :
    (applyTopK topK ((sortByRerank (zipScores (filterDist dt all) ss)).filter
      (fun r => decide (rt < rkey r)))).length ≤ (attachScores dt all ss).length := by
  have l1 := (applyTopK_sublist topK ((sortByRerank (zipScores (filterDist dt all) ss)).filter
    (fun r => decide (rt < rkey r)))).length_le
  have l2 := (List.filter_sublist (l := sortByRerank (zipScores (filterDist dt all) ss))
    (p := fun r => decide (rt < rkey r))).length_le
  have l3 := (sortByRerank_perm (zipScores (filterDist dt all) ss)).length_eq
  have l4 : (zipScores (filterDist dt all) ss).length ≤ (attachScores dt all ss).length := by
    rw [← attachScores_filter dt all ss hlen]
    exact (filterDist_sublist dt _).length_le
  omega

/-- Every final result of the rerank branch carries a rerank score above the
rerank threshold. -/
theorem rerank_branch_scored (all : List KBItem) (ss : List ℚ) (dt rt : ℚ)
    (topK : Option ℕ) :
    ∀ r ∈ applyTopK topK ((sortByRerank (zipScores (filterDist dt all) ss)).filter
      (fun r => decide (rt < rkey r))), r.rerank_score.isSome ∧ rt < rkey r := by
  intro r hr
  have h1 : r ∈ (sortByRerank (zipScores (filterDist dt all) ss)).filter
      (fun r => decide (rt < rkey r)) := (applyTopK_sublist topK _).subset hr
  have h2 := List.mem_filter.mp h1
  refine ⟨?_, by simpa using h2.2⟩
  have h3 : r ∈ zipScores (filterDist dt all) ss := (sortByRerank_perm _).subset h2.1
  exact mem_zipScores_isSome h3

/-- The final result list of the rerank branch is sorted descending by
rerank score. -/
theorem rerank_branch_sorted (all : List KBItem) (ss : List ℚ) (dt rt : ℚ)
    (topK : Option ℕ) :
    (applyTopK topK ((sortByRerank (zipScores (filterDist dt all) ss)).filter
      (fun r => decide (rt < rkey r)))).Pairwise (fun a b => rkey b ≤ rkey a) := by
  have h1 := sortByRerank_sorted (zipScores (filterDist dt all) ss)
  have h2 := List.Pairwise.sublist (List.filter_sublist
    (l := sortByRerank (zipScores (filterDist dt all) ss))
    (p := fun r => decide (rt < rkey r))) h1
  exact List.Pairwise.sublist (applyTopK_sublist topK _) h2

/-- In the rerank branch every `all_results` item that passed the distance
filter has been assigned a rerank score (through the shared dicts). -/
theorem attach_survivors_scored (all : List KBItem) (ss : List ℚ) (dt : ℚ)
    (hlen : (filterDist dt all).length ≤ ss.length) :
    ∀ r ∈ attachScores dt all ss, dt < r.hit.distance → r.rerank_score.isSome := by
  intro r hr hd
  have h1 : r ∈ filterDist dt (attachScores dt all ss) :=
    List.mem_filter.mpr ⟨hr, by simpa using hd⟩
  rw [attachScores_filter dt all ss hlen] at h1
  exact mem_zipScores_isSome h1

end QueryEngine

theorem exbind_ok {α β : Type} (a : α) (f : α → Except String β) :
    (Except.ok a >>= f) = f a := rfl

/-- The graph entity loop is a no-op on a list of blank entities. -/
theorem queryGraphLoop_blank (gbe : GraphBackend) :
    ∀ (entities : List String) (acc : List GraphRaw),
      (∀ e ∈ entities, e = "") → queryGraphLoop gbe entities acc = .ok acc
  | [], acc, _ => rfl
  | e :: rest, acc, h => by
    have he : e = "" := h e (List.mem_cons_self e rest)
    unfold queryGraphLoop
    rw [if_neg (by simp [he])]
    exact queryGraphLoop_blank gbe rest acc (fun x hx => h x (List.mem_cons_of_mem e hx))

/-- A generation failure during rewriting, in any rewrite mode other than
`off`, propagates out of `Retriever.rewrite_query`. -/
theorem rewrite_query_error (cfg : AgentConfig) (gen : GenBackend) (query : String)
    (history : List ChatMsg) (meta : Meta) (e : String)
    (hspan : (if meta.mode = some "search" then meta.use_rewrite_query
              else cfg.query_mode) ≠ "off")
    (hge : gen.rewriteResponse = .error e) :
    Retriever.rewrite_query cfg gen query history meta = .error e := by
  unfold Retriever.rewrite_query
  rw [if_neg hspan, hge]
  rfl


/-! ## Claim theorems -/

/-- Claim C2: after the distance-filtering stage every surviving item's
similarity score strictly exceeds the threshold, the survivors keep their
relative order (the filtered list is a sublist of the input), evidence
without a similarity score — graph and web results — is untouched by this
stage (both adapters are independent of `distanceThreshold`), and the
concrete scenario `distance_threshold = 0.5`, kb scores `[0.9, 0.4, 0.6]`
keeps exactly the `0.9` and `0.6` items in that order. -/
theorem C2_distance_filter :
    (∀ (t : ℚ) (l : List KBItem) (r : KBItem),
        r ∈ QueryEngine.filterDist t l → t < r.hit.distance) ∧
    (∀ (t : ℚ) (l : List KBItem), (QueryEngine.filterDist t l).Sublist l) ∧
    QueryEngine.filterDist 0.5 [Sample.item09, Sample.item04, Sample.item06]
      = [Sample.item09, Sample.item06] ∧
    (∀ (cfg : AgentConfig) (gbe : GraphBackend) (meta : Meta)
        (entities : List String) (t : ℚ),
        Retriever.query_graph cfg gbe { meta with distanceThreshold := t } entities
          = Retriever.query_graph cfg gbe meta entities) ∧
    (∀ (cfg : AgentConfig) (models : LoadedModels) (web : Except String (List WebHit))
        (meta : Meta) (t : ℚ),
        Retriever.query_web cfg models web { meta with distanceThreshold := t }
          = Retriever.query_web cfg models web meta) := by
  refine ⟨fun t l r h => QueryEngine.mem_filterDist h,
          fun t l => QueryEngine.filterDist_sublist t l, ?_,
          fun cfg gbe meta entities t => rfl,
          fun cfg models web meta t => rfl⟩
  have h9 : ((0.5 : ℚ) < 0.9) := by norm_num
  have h4 : ¬((0.5 : ℚ) < 0.4) := by norm_num
  have h6 : ((0.5 : ℚ) < 0.6) := by norm_num
  simp [QueryEngine.filterDist, List.filter, Sample.item09, Sample.item04, Sample.item06,
    Sample.hit09, Sample.hit04, Sample.hit06, h9, h4, h6]

/-- Witness for C2 at a concrete input: the `0.9` item survives the
filtering at threshold `0.5` and indeed scores above it. -/
theorem C2_distance_filter_witness :
    (0.5 : ℚ) < Sample.item09.hit.distance :=
  C2_distance_filter.1 0.5 [Sample.item09, Sample.item04, Sample.item06] Sample.item09
    (by
      have h9 : ((0.5 : ℚ) < 0.9) := by norm_num
      simp [QueryEngine.filterDist, List.filter, Sample.item09, Sample.hit09, h9])

/-- Claim C8: when every evidence group of the bundle is empty the context
assembler returns the original query string itself (exact equality, no
template wrapping); when at least one group is non-empty the result is the
fixed template with the rendered blocks and the query interpolated. -/
theorem C8_context_assembler :
    (∀ (query : String) (meta : Meta) (refs : Refs),
        refs.knowledge_base.results = [] →
        refs.graph_base.results.nodes = [] →
        refs.web_search.results = [] →
        Retriever.construct_query query refs meta = query) ∧
    (∀ (query : String) (meta : Meta) (refs : Refs),
        (refs.knowledge_base.results ≠ [] ∨ refs.graph_base.results.nodes ≠ [] ∨
         refs.web_search.results ≠ []) →
        Retriever.construct_query query refs meta
          = pyFormatTemplate KNOWBASE_QA_TEMPLATE
              (joinWith "\n\n" (Retriever.externalParts refs)) query) := by
  constructor
  · intro query meta refs h1 h2 h3
    simp [Retriever.construct_query, Retriever.externalParts, h1, h2, h3]
  · intro query meta refs h
    have hne : Retriever.externalParts refs ≠ [] := by
      unfold Retriever.externalParts
      rcases h with h | h | h <;> simp [h]
    simp [Retriever.construct_query, hne]

/-- Witness for C8 at a concrete input: with every evidence group empty the
assembler returns exactly the original query. -/
theorem C8_context_assembler_witness :
    Retriever.construct_query "what is x" Sample.refsEmpty Sample.metaKbWeb = "what is x" :=
  C8_context_assembler.1 "what is x" Sample.metaKbWeb Sample.refsEmpty rfl rfl rfl

theorem advanced_query_eq_core {be : KBBackend} {query db_id : String} {mq : ℕ}
    {hits : List KBHit} (cfg : AgentConfig) (models : LoadedModels)
    (dt rt : ℚ) (topK : Option ℕ)
    (h : be.searchHits query db_id mq = .ok hits) :
    QueryEngine.advanced_query cfg models be query db_id dt rt mq topK
      = QueryEngine.advanced_query_core cfg models be query dt rt topK hits := by
  unfold QueryEngine.advanced_query
  rw [h]
  rfl

/-- Claim C10: `advanced_query` returns in `all_results` every raw search
hit in its original retrieval order — filtering, reranking and top-k
truncation never remove items from it or reorder it — and every element of
`results` is one of the (shared, possibly score-enriched) elements of
`all_results`, so the returned `results` list is never longer than
`all_results`. -/
theorem C10_all_results_invariant :
    ∀ (cfg : AgentConfig) (models : LoadedModels) (be : KBBackend)
      (query db_id : String) (dt rt : ℚ) (mq : ℕ) (topK : Option ℕ) (hits : List KBHit),
      be.searchHits query db_id mq = .ok hits →
      (∀ q ts, (be.rerankScores q ts).length = ts.length) →
      ∃ resp : QueryEngine.Response,
        QueryEngine.advanced_query cfg models be query db_id dt rt mq topK = .ok resp ∧
        resp.all_results.map KBItem.hit = hits ∧
        (∀ r ∈ resp.results, r ∈ resp.all_results) ∧
        resp.results.length ≤ resp.all_results.length := by
  intro cfg models be query db_id dt rt mq topK hits hok hlen
  rw [advanced_query_eq_core cfg models dt rt topK hok]
  simp only [QueryEngine.advanced_query_core]
  by_cases hc : cfg.enable_rerank = true ∧
      QueryEngine.filterDist dt (QueryEngine.enrichHits be hits) ≠ [] ∧
      models.rerankerLoaded = true
  · rw [if_pos hc]
    have hslen : (be.rerankScores query ((QueryEngine.filterDist dt
        (QueryEngine.enrichHits be hits)).map (fun r => r.hit.text))).length
        = (QueryEngine.filterDist dt (QueryEngine.enrichHits be hits)).length := by
      rw [hlen, List.length_map]
    rw [if_neg (by omega)]
    refine ⟨_, rfl, ?_, ?_, ?_⟩
    · rw [QueryEngine.attachScores_map_hit, QueryEngine.enrichHits_map_hit]
    · exact QueryEngine.rerank_branch_subset_all _ _ dt rt topK (by omega)
    · exact QueryEngine.rerank_branch_length_le _ _ dt rt topK (by omega)
  · rw [if_neg hc]
    refine ⟨_, rfl, QueryEngine.enrichHits_map_hit be hits, ?_, ?_⟩
    · intro r hr
      have h1 : r ∈ QueryEngine.filterDist dt (QueryEngine.enrichHits be hits) :=
        (QueryEngine.applyTopK_sublist topK _).subset hr
      exact (QueryEngine.filterDist_sublist dt _).subset h1
    · dsimp only
      have l1 := (QueryEngine.applyTopK_sublist topK
        (QueryEngine.filterDist dt (QueryEngine.enrichHits be hits))).length_le
      have l2 := (QueryEngine.filterDist_sublist dt (QueryEngine.enrichHits be hits)).length_le
      omega

/-- Witness for C10 at a concrete input: a run whose single hit survives
intact in `all_results`. -/
theorem C10_all_results_invariant_witness :
    ∃ resp : QueryEngine.Response,
      QueryEngine.advanced_query
        { enable_kb := true, enable_graph := true, enable_websearch := true,
          enable_rerank := false, query_mode := "off" }
        { webSearcherLoaded := true, rerankerLoaded := false }
        Sample.kbOk "q" "kb1" 0 1 20 (some 10) = .ok resp ∧
      resp.all_results.map KBItem.hit = [Sample.kbHit] ∧
      (∀ r ∈ resp.results, r ∈ resp.all_results) ∧
      resp.results.length ≤ resp.all_results.length :=
  C10_all_results_invariant _ _ Sample.kbOk "q" "kb1" 0 1 20 (some 10) [Sample.kbHit]
    rfl (fun q ts => by simp [Sample.kbOk])

/-- Counterexample to claim C3 as stated: in a run with reranking enabled, a
loaded reranker and a kb candidate surviving distance filtering, the
returned evidence bundle still contains a web evidence item that carries no
rerank score — the reranker does not score surviving candidates "regardless
of source": it runs inside the kb query engine only, so graph and web
evidence is never scored, and no cross-source sorted list exists. -/
theorem C3_counterexample :
    Sample.cfgRerank.enable_rerank = true ∧
    Sample.modelsAll.rerankerLoaded = true ∧
    Retriever.retrieval Sample.cfgRerank Sample.modelsAll Sample.beKbWeb "q" []
      Sample.metaKbWeb = .ok Sample.refsRerank ∧
    Sample.refsRerank.knowledge_base.results ≠ [] ∧
    (Source.web, (none : Option ℚ)) ∈ bundleRerankScores Sample.refsRerank := by
  refine ⟨rfl, rfl, ?_, by decide, by decide⟩
  rfl

/-- Claim C3 (amended): reranking applies only inside the kb source.  When
the rerank flag is set, the reranker is loaded and at least one kb candidate
survives distance filtering, every surviving kb candidate is assigned a
rerank score (visible also through `all_results`), the returned kb results
are sorted by rerank score descending, and each of them scores strictly
above the rerank threshold; graph and web evidence items never carry a
rerank score. -/
theorem C3_amended :
    (∀ (cfg : AgentConfig) (models : LoadedModels) (be : KBBackend)
        (query db_id : String) (dt rt : ℚ) (mq : ℕ) (topK : Option ℕ) (hits : List KBHit),
        be.searchHits query db_id mq = .ok hits →
        (∀ q ts, (be.rerankScores q ts).length = ts.length) →
        cfg.enable_rerank = true → models.rerankerLoaded = true →
        QueryEngine.filterDist dt (QueryEngine.enrichHits be hits) ≠ [] →
        ∃ resp : QueryEngine.Response,
          QueryEngine.advanced_query cfg models be query db_id dt rt mq topK = .ok resp ∧
          resp.results.Pairwise (fun a b => rkey b ≤ rkey a) ∧
          (∀ r ∈ resp.results, r.rerank_score.isSome ∧ rt < rkey r) ∧
          (∀ r ∈ resp.all_results, dt < r.hit.distance → r.rerank_score.isSome)) ∧
    (∀ (refs : Refs) (s : Source) (q : Option ℚ),
        (s, q) ∈ bundleRerankScores refs → s ≠ Source.kb → q = none) := by
  constructor
  · intro cfg models be query db_id dt rt mq topK hits hok hlen hr hl hne
    rw [advanced_query_eq_core cfg models dt rt topK hok]
    simp only [QueryEngine.advanced_query_core]
    rw [if_pos ⟨hr, hne, hl⟩]
    have hslen : (be.rerankScores query ((QueryEngine.filterDist dt
        (QueryEngine.enrichHits be hits)).map (fun r => r.hit.text))).length
        = (QueryEngine.filterDist dt (QueryEngine.enrichHits be hits)).length := by
      rw [hlen, List.length_map]
    rw [if_neg (by omega)]
    exact ⟨_, rfl, QueryEngine.rerank_branch_sorted _ _ dt rt topK,
      QueryEngine.rerank_branch_scored _ _ dt rt topK,
      QueryEngine.attach_survivors_scored _ _ dt (by omega)⟩
  · intro refs s q hmem hs
    simp only [bundleRerankScores, List.mem_append, List.mem_map] at hmem
    rcases hmem with (⟨r, _, he⟩ | ⟨r, _, he⟩) | ⟨r, _, he⟩
    · exact absurd (congrArg Prod.fst he).symm hs
    · exact (congrArg Prod.snd he).symm
    · exact (congrArg Prod.snd he).symm

/-- Witness for the amended C3 at a concrete input: the single surviving kb
candidate is scored, sorted and above the threshold. -/
theorem C3_amended_witness :
    ∃ resp : QueryEngine.Response,
      QueryEngine.advanced_query Sample.cfgRerank Sample.modelsAll Sample.kbOk
        "q" "kb1" 0 1 20 (some 10) = .ok resp ∧
      resp.results.Pairwise (fun a b => rkey b ≤ rkey a) ∧
      (∀ r ∈ resp.results, r.rerank_score.isSome ∧ (1 : ℚ) < rkey r) ∧
      (∀ r ∈ resp.all_results, (0 : ℚ) < r.hit.distance → r.rerank_score.isSome) :=
  C3_amended.1 Sample.cfgRerank Sample.modelsAll Sample.kbOk "q" "kb1" 0 1 20 (some 10)
    [Sample.kbHit] rfl (fun q ts => by simp [Sample.kbOk]) rfl rfl (by decide)

/-- Counterexample to claim C1 as stated: an exception raised by the kb
adapter's backend is not caught and converted into an empty result — it
propagates out of `Retriever.retrieval`, and consequently no other
adapter's results appear either. -/
theorem C1_counterexample :
    Retriever.retrieval Sample.cfgRerank Sample.modelsAll Sample.beKbErr "q" []
      Sample.metaKbWeb = .error "milvus down" := rfl

/-- Claim C1 (amended): only the web adapter catches its backend errors.
When entity extraction, the kb adapter and the graph adapter succeed,
`retrieval` succeeds whatever the web backend does, the kb and graph results
appear unchanged in the bundle, and a web backend exception yields an empty
web result list. -/
theorem C1_amended :
    ∀ (cfg : AgentConfig) (models : LoadedModels) (be : Backends) (query : String)
      (history : List ChatMsg) (meta : Meta) (ents : List String)
      (kbresp : KBResponse) (gresp : GraphResponse),
      Retriever.reco_entities be.gen query meta = .ok ents →
      Retriever.query_knowledgebase cfg models be.gen be.kb query history meta = .ok kbresp →
      Retriever.query_graph cfg be.graph meta ents = .ok gresp →
      Retriever.retrieval cfg models be query history meta
        = .ok { query := query, entities := ents, knowledge_base := kbresp,
                graph_base := gresp,
                web_search := Retriever.query_web cfg models be.web meta } ∧
      (∀ e, be.web = .error e → (Retriever.query_web cfg models be.web meta).results = []) := by
  intro cfg models be query history meta ents kbresp gresp h1 h2 h3
  constructor
  · unfold Retriever.retrieval
    rw [h1, exbind_ok, h2, exbind_ok, h3, exbind_ok]
    rfl
  · intro e he
    unfold Retriever.query_web
    by_cases hg : ¬(meta.use_web = true ∨ ¬cfg.enable_websearch = true)
    · rw [if_pos hg]
    · rw [if_neg hg, he]
      by_cases hl : models.webSearcherLoaded = true
      · rw [if_pos hl]
      · rw [if_neg hl]

/-- Witness for the amended C1 at a concrete input: a failing web backend
does not prevent the kb and graph results from being returned. -/
theorem C1_amended_witness :
    Retriever.retrieval Sample.cfgRerank Sample.modelsAll Sample.beWebErr "q" []
      Sample.metaKbWeb
      = .ok { query := "q", entities := [],
              knowledge_base := { results := [Sample.itemScored],
                                  all_results := [Sample.itemScored],
                                  rw_query := "q", message := "" },
              graph_base := { results := { nodes := [], edges := [] } },
              web_search := Retriever.query_web Sample.cfgRerank Sample.modelsAll
                Sample.beWebErr.web Sample.metaKbWeb } :=
  (C1_amended Sample.cfgRerank Sample.modelsAll Sample.beWebErr "q" [] Sample.metaKbWeb
    [] { results := [Sample.itemScored], all_results := [Sample.itemScored],
         rw_query := "q", message := "" }
    { results := { nodes := [], edges := [] } } rfl rfl rfl).1

/-- Counterexample to claim C4 as stated: with the graph feature flag
`enable_graph` off (but `enable_kb` on) the graph backend is still queried —
the outcome of `query_graph` depends on the graph backend, and a backend
exception even escapes; moreover, with `use_web` unset and the websearch
feature disabled, the web adapter still attempts its search and returns an
"error" response rather than the "disabled" one. -/
theorem C4_counterexample :
    Sample.cfgGraphOff.enable_graph = false ∧
    Retriever.query_graph Sample.cfgGraphOff Sample.graphOk Sample.metaGraphOnly ["5"]
      ≠ Retriever.query_graph Sample.cfgGraphOff Sample.graphErr Sample.metaGraphOnly ["5"] ∧
    Retriever.query_graph Sample.cfgGraphOff Sample.graphErr Sample.metaGraphOnly ["5"]
      = .error "Failed to get sample nodes: neo4j down" ∧
    Sample.metaGraphOnly.use_web = false ∧
    Sample.cfgWsOff.enable_websearch = false ∧
    Retriever.query_web Sample.cfgWsOff Sample.modelsNone (.ok [Sample.webHit])
      Sample.metaGraphOnly = { results := [], message := "Web search error" } := by
  refine ⟨rfl, ?_, rfl, rfl, rfl, rfl⟩
  have hok : Retriever.query_graph Sample.cfgGraphOff Sample.graphOk Sample.metaGraphOnly ["5"]
      = .ok { results := DataTransformer.format_query_results [] } := rfl
  have herr : Retriever.query_graph Sample.cfgGraphOff Sample.graphErr Sample.metaGraphOnly ["5"]
      = .error "Failed to get sample nodes: neo4j down" := rfl
  rw [hok, herr]
  intro h
  exact Except.noConfusion h

/-- Claim C4 (amended): the kb backend is queried only if a kb id is
supplied and the kb feature is on (otherwise an empty response with an
explanatory message is returned without touching the backend); the graph
backend is queried only if the request's `use_graph` is set and the *kb*
feature flag is on, and only for non-blank entities (otherwise the empty
formatted result); the web search is attempted iff `use_web` is set or the
websearch feature is disabled — when it is not attempted the response is the
"disabled" message, and when it is attempted without a loaded search client
the caught failure yields an empty "error" response. -/
theorem C4_amended :
    (∀ (cfg : AgentConfig) (models : LoadedModels) (gen : GenBackend) (kbe : KBBackend)
        (query : String) (history : List ChatMsg) (meta : Meta),
        ¬(pyTruthyStr meta.db_id = true ∧ cfg.enable_kb = true) →
        Retriever.query_knowledgebase cfg models gen kbe query history meta
          = .ok { results := [], all_results := [], rw_query := query,
                  message := "The knowledge base is not enabled, or the knowledge base is not specified, or the knowledge base does not exist" }) ∧
    (∀ (cfg : AgentConfig) (gbe : GraphBackend) (meta : Meta) (entities : List String),
        ¬(meta.use_graph = true ∧ cfg.enable_kb = true) →
        Retriever.query_graph cfg gbe meta entities
          = .ok { results := DataTransformer.format_query_results [] }) ∧
    (∀ (cfg : AgentConfig) (gbe : GraphBackend) (meta : Meta) (entities : List String),
        (∀ e ∈ entities, e = "") →
        Retriever.query_graph cfg gbe meta entities
          = .ok { results := DataTransformer.format_query_results [] }) ∧
    (∀ (cfg : AgentConfig) (models : LoadedModels) (web : Except String (List WebHit))
        (meta : Meta),
        meta.use_web = false → cfg.enable_websearch = true →
        Retriever.query_web cfg models web meta
          = { results := [], message := "Web search is disabled" }) ∧
    (∀ (cfg : AgentConfig) (models : LoadedModels) (web : Except String (List WebHit))
        (meta : Meta),
        meta.use_web = false → cfg.enable_websearch = false →
        models.webSearcherLoaded = false →
        Retriever.query_web cfg models web meta
          = { results := [], message := "Web search error" }) := by
  refine ⟨?_, ?_, ?_, ?_, ?_⟩
  · intro cfg models gen kbe query history meta h
    unfold Retriever.query_knowledgebase
    rw [if_pos h]
    rfl
  · intro cfg gbe meta entities h
    unfold Retriever.query_graph
    rw [if_neg h]
  · intro cfg gbe meta entities h
    unfold Retriever.query_graph
    by_cases hg : meta.use_graph = true ∧ cfg.enable_kb = true
    · rw [if_pos hg, queryGraphLoop_blank gbe entities [] h]
    · rw [if_neg hg]
  · intro cfg models web meta h1 h2
    unfold Retriever.query_web
    rw [if_pos (by simp [h1, h2])]
  · intro cfg models web meta h1 h2 h3
    unfold Retriever.query_web
    rw [if_neg (by simp [h1, h2]), if_neg (by simp [h3])]

/-- Witness for the amended C4 at a concrete input: with no kb id supplied
the kb adapter returns its empty disabled response. -/
theorem C4_amended_witness :
    Retriever.query_knowledgebase Sample.cfgGraphOff Sample.modelsNone Sample.genOk
      Sample.kbOk "q" [] Sample.metaGraphOnly
      = .ok { results := [], all_results := [], rw_query := "q",
              message := "The knowledge base is not enabled, or the knowledge base is not specified, or the knowledge base does not exist" } :=
  C4_amended.1 Sample.cfgGraphOff Sample.modelsNone Sample.genOk Sample.kbOk "q" []
    Sample.metaGraphOnly (by decide)

/-- Counterexample to claim C5 as stated: a generation exception during
entity extraction is not caught — it propagates out of `retrieval`; likewise
a generation exception during query rewriting (any mode other than `off`)
propagates out of the kb query and hence `retrieval`. -/
theorem C5_counterexample :
    Retriever.retrieval Sample.cfgRerank Sample.modelsAll
      { gen := Sample.genNerErr, kb := Sample.kbOk, graph := Sample.graphOk, web := .ok [] }
      "q" [] Sample.metaGraphKb = .error "llm down" ∧
    Retriever.retrieval Sample.cfgRwOn Sample.modelsAll
      { gen := Sample.genRwErr, kb := Sample.kbOk, graph := Sample.graphOk, web := .ok [] }
      "q" [] Sample.metaKbWeb = .error "llm down" := ⟨rfl, rfl⟩

/-- Claim C5 (amended): generation failures are not caught by the retriever.
A NER-call failure propagates out of `reco_entities` (when `use_graph` is
set); a rewrite-call failure propagates out of `query_knowledgebase` (when
the kb guard passes and the rewrite mode is not `off`); only rewrite mode
`off` avoids the generation call, returning the query unchanged. -/
theorem C5_amended :
    (∀ (gen : GenBackend) (query : String) (meta : Meta) (e : String),
        meta.use_graph = true → gen.nerResponse = .error e →
        Retriever.reco_entities gen query meta = .error e) ∧
    (∀ (cfg : AgentConfig) (models : LoadedModels) (gen : GenBackend) (kbe : KBBackend)
        (query : String) (history : List ChatMsg) (meta : Meta) (e : String),
        pyTruthyStr meta.db_id = true → cfg.enable_kb = true →
        (if meta.mode = some "search" then meta.use_rewrite_query
         else cfg.query_mode) ≠ "off" →
        gen.rewriteResponse = .error e →
        Retriever.query_knowledgebase cfg models gen kbe query history meta = .error e) ∧
    (∀ (cfg : AgentConfig) (gen : GenBackend) (query : String) (history : List ChatMsg)
        (meta : Meta),
        (if meta.mode = some "search" then meta.use_rewrite_query
         else cfg.query_mode) = "off" →
        Retriever.rewrite_query cfg gen query history meta = .ok query) := by
  refine ⟨?_, ?_, ?_⟩
  · intro gen query meta e hu hg
    unfold Retriever.reco_entities
    rw [if_pos hu, hg]
    rfl
  · intro cfg models gen kbe query history meta e h1 h2 hspan hge
    unfold Retriever.query_knowledgebase
    rw [if_neg (by simp [h1, h2]),
        rewrite_query_error cfg gen query history meta e hspan hge]
    rfl
  · intro cfg gen query history meta hspan
    unfold Retriever.rewrite_query
    rw [if_pos hspan, hspan]
    rfl

/-- Witness for the amended C5 at a concrete input: a failing NER call makes
entity extraction fail rather than yield an empty list. -/
theorem C5_amended_witness :
    Retriever.reco_entities Sample.genNerErr "q" Sample.metaGraphKb = .error "llm down" :=
  C5_amended.1 Sample.genNerErr "q" Sample.metaGraphKb "llm down" rfl rfl

/-- Claim C6 (code bug): the graph source does not traverse from the node
named by each entity.  `Retriever.query_graph` calls
`graph_database.get_sample_nodes(entity)`, whose first parameter is the
numeric row *limit* of the sample query `MATCH (n)-[r]->(m) ... LIMIT $num`
(annotated `num: int`); on a typical entity such as `"Paris"` the `int(num)`
conversion raises `ValueError`, re-raised as `QueryError` and propagating
out of `query_graph` — no per-entity traversal happens, whatever the
backend holds.  The function matching the claim,
`query_specific_entity(entity_name, hops=2, limit=100)`, exists in the
repository but is never called by the retriever. -/
theorem C6_entity_traversal_bug :
    (∀ gbe : GraphBackend, QueryManager.get_sample_nodes gbe "Paris"
        = .error "Failed to get sample nodes: invalid literal for int() with base 10: Paris") ∧
    Sample.cfgRerank.enable_kb = true ∧
    Sample.metaGraphKb.use_graph = true ∧
    (∀ gbe : GraphBackend,
        Retriever.query_graph Sample.cfgRerank gbe Sample.metaGraphKb ["Paris"]
          = .error "Failed to get sample nodes: invalid literal for int() with base 10: Paris") ∧
    (∀ (gbe : GraphBackend) (name : String),
        QueryManager.query_specific_entity gbe name
          = match gbe.traverse name 2 100 with
            | .error e => .error ("Failed to query specific entity: " ++ e)
            | .ok r => .ok r) :=
  ⟨fun gbe => rfl, rfl, rfl, fun gbe => rfl, fun gbe name => rfl⟩

/-- Counterexample to claim C7 as stated: the knowledge-base query path
carries no embedding-model information at all — `advanced_query` takes only
the query, collection id and thresholds — so with a target collection whose
recorded model differs from the configured one the vector search still runs
and returns its hits normally instead of failing the precondition and
skipping the source. -/
theorem C7_counterexample :
    EmbeddingManager.check_model_compatibility (some "ollama/bge-m3")
      Sample.dbMismatch.embed_model = false ∧
    QueryEngine.advanced_query Sample.cfgKbNoRerank Sample.modelsAll Sample.kbOk
      "q" Sample.dbMismatch.db_id 0 1 20 (some 10)
      = .ok { results := [Sample.itemPlain], all_results := [Sample.itemPlain] } :=
  ⟨rfl, rfl⟩

/-- Claim C7 (amended): the embedding-model compatibility check exists only
on the ingestion path and when building retrievers: `add_files` on a
mismatched collection fails immediately with an explicit mismatch message
(before any file is processed), and `get_retrievers` only builds retrievers
for collections whose recorded model equals the current one; the direct
query path performs no such check. -/
theorem C7_amended :
    (∀ (db : DBRecord) (cur : Option String),
        cur ≠ some db.embed_model →
        KnowledgeBase.add_files_guard (some db) cur
          = .failed ("Model mismatch: current=" ++ cur.getD "None" ++
                     ", required=" ++ db.embed_model)) ∧
    (∀ (dbs : List DBRecord) (cur : Option String) (id : String),
        id ∈ KnowledgeBase.get_retrievers dbs cur →
        ∃ db ∈ dbs, db.db_id = id ∧ cur = some db.embed_model) := by
  constructor
  · intro db cur h
    have hc : EmbeddingManager.check_model_compatibility cur db.embed_model = false := by
      simp [EmbeddingManager.check_model_compatibility]
      exact h
    simp [KnowledgeBase.add_files_guard, hc]
  · intro dbs cur id h
    simp only [KnowledgeBase.get_retrievers, List.mem_map, List.mem_filter] at h
    obtain ⟨db, ⟨hdb, hcomp⟩, rfl⟩ := h
    refine ⟨db, hdb, rfl, ?_⟩
    simpa [EmbeddingManager.check_model_compatibility] using hcomp

/-- Witness for the amended C7 at a concrete input: ingesting into a
collection recorded with a different embedding model fails with the explicit
mismatch message. -/
theorem C7_amended_witness :
    KnowledgeBase.add_files_guard (some Sample.dbMismatch) (some "ollama/bge-m3")
      = .failed ("Model mismatch: current=" ++ (some "ollama/bge-m3").getD "None" ++
                 ", required=" ++ Sample.dbMismatch.embed_model) :=
  C7_amended.1 Sample.dbMismatch (some "ollama/bge-m3") (by decide)

/-- Counterexample to claim C9 as stated: the extractor returns the raw
split of the model response on `"<->"` — entries are neither trimmed nor
filtered, so the response `" Paris <->France"` yields `[" Paris ", "France"]`
and not the claimed cleaned-up list `["Paris", "France"]`. -/
theorem C9_counterexample :
    Retriever.reco_entities Sample.genNerSpace "q" Sample.metaGraphKb
      = .ok [" Paris ", "France"] ∧
    specEntityCleanup " Paris <->France" = ["Paris", "France"] ∧
    ([" Paris ", "France"] : List String) ≠ ["Paris", "France"] :=
  ⟨rfl, by decide, by decide⟩

/-- Claim C9 (amended): the extractor returns the response split on the
delimiter verbatim — no trimming and no removal of blank entries (blank
entities are only skipped later, by the graph query loop); the particular
response `"Paris<->France"` does yield exactly `["Paris", "France"]`. -/
theorem C9_amended :
    (∀ (gen : GenBackend) (query : String) (meta : Meta) (resp : String),
        meta.use_graph = true → gen.nerResponse = .ok resp →
        Retriever.reco_entities gen query meta = .ok (pySplit resp "<->")) ∧
    Retriever.reco_entities Sample.genNerParis "q" Sample.metaGraphKb
      = .ok ["Paris", "France"] ∧
    (∀ (cfg : AgentConfig) (gbe : GraphBackend) (meta : Meta),
        Retriever.query_graph cfg gbe meta [""] = Retriever.query_graph cfg gbe meta []) := by
  refine ⟨?_, rfl, fun cfg gbe meta => rfl⟩
  intro gen query meta resp hu hg
  unfold Retriever.reco_entities
  rw [if_pos hu, hg]
  rfl

/-- Witness for the amended C9 at a concrete input: the scenario response is
returned as its raw split. -/
theorem C9_amended_witness :
    Retriever.reco_entities Sample.genNerParis "q" Sample.metaGraphKb
      = .ok (pySplit "Paris<->France" "<->") :=
  C9_amended.1 Sample.genNerParis "q" Sample.metaGraphKb "Paris<->France" rfl rfl

end Neuroplex
